import Mathlib

/-!
Shallow embedding of the OrionTax Sync repository (src/config/database.py,
src/config/encryption.py, src/core/oracle_client.py) and proofs about the
behaviour its specification claims.

Conventions of the embedding:
* SQLite tables are lists of row structures; auto-increment ids are carried
  in the state.
* Python functions that may raise are modelled with `Except`/`Option`;
  functions that catch exceptions and return booleans return the boolean.
* External libraries (the Fernet cipher, bcrypt, pandas date parsing,
  Python `str` of a float) are parameters of the model, so every theorem
  about repository code holds for all behaviours of the library, with the
  library's documented contract as an explicit hypothesis where it is
  needed.
-/

namespace OrionTax

/-! ### CNPJ handling (src/config/database.py) -/

/-- `''.join(filter(str.isdigit, cnpj))`: keep only the digit characters. -/
def onlyDigits (s : String) : String :=
  String.mk (s.data.filter Char.isDigit)

/-- `DatabaseManager.format_cnpj` (database.py lines 314-329): normalize to
digits; if not exactly 14 digits return the input unchanged, else format as
`NN.NNN.NNN/NNNN-NN`. -/
def format_cnpj (cnpj : String) : String :=
  if (onlyDigits cnpj).length ≠ 14 then cnpj
  else
    String.mk ((onlyDigits cnpj).data.take 2) ++ "." ++
      String.mk (((onlyDigits cnpj).data.drop 2).take 3) ++ "." ++
      String.mk (((onlyDigits cnpj).data.drop 5).take 3) ++ "/" ++
      String.mk (((onlyDigits cnpj).data.drop 8).take 4) ++ "-" ++
      String.mk ((onlyDigits cnpj).data.drop 12)

/-- A row of the `clientes` table. -/
structure Cliente where
  id : Nat
  nome : String
  cnpj : String
  is_active : Bool
  deriving Repr, DecidableEq

/-- The `clientes` table plus the auto-increment counter. -/
structure ClientesState where
  rows : List Cliente
  nextId : Nat
  deriving Repr, DecidableEq

/-- `DatabaseManager.create_cliente` (database.py lines 212-241): strip
non-digits; reject unless exactly 14 digits; a UNIQUE-constraint violation on
`cnpj` (sqlite3.IntegrityError) is caught and returns `false`. -/
def create_cliente (st : ClientesState) (nome cnpj : String) :
    ClientesState × Bool :=
  let limpo := onlyDigits cnpj
  if limpo.length ≠ 14 then (st, false)
  else if st.rows.any (fun r => r.cnpj == limpo) then (st, false)
  else ({ rows := st.rows ++ [⟨st.nextId, nome, limpo, true⟩],
          nextId := st.nextId + 1 }, true)

/-- `DatabaseManager.update_cliente` (database.py lines 243-272): strip
non-digits; reject unless exactly 14 digits; `UPDATE ... WHERE id = ?` (no
`is_active` filter, and updating zero rows is still a success); a
UNIQUE-violation (new cnpj equal to a different row's cnpj) raises and is
caught into `false` with the statement having had no effect. -/
def update_cliente (st : ClientesState) (cid : Nat) (nome cnpj : String) :
    ClientesState × Bool :=
  let limpo := onlyDigits cnpj
  if limpo.length ≠ 14 then (st, false)
  else if (st.rows.any fun r => r.id == cid) &&
      (st.rows.any fun r => r.id != cid && r.cnpj == limpo) then (st, false)
  else ({ st with
          rows := st.rows.map fun r =>
            if r.id == cid then { r with nome := nome, cnpj := limpo } else r },
        true)

/-- `DatabaseManager.delete_cliente` (database.py lines 274-293): soft delete,
`UPDATE clientes SET is_active = 0 WHERE id = ?`; always returns `true` unless
the engine errors. -/
def delete_cliente (st : ClientesState) (cid : Nat) : ClientesState × Bool :=
  ({ st with
     rows := st.rows.map fun r =>
       if r.id == cid then { r with is_active := false } else r },
   true)

/-! ### Schedules (src/config/database.py lines 452-545) -/

/-- A row of the `agendamentos` table.  `dias_semana` stores the JSON array
`[schedule_day]` or NULL. -/
structure Agendamento where
  id : Nat
  tipo_operacao : String
  frequencia : String
  dias_semana : Option (List Int)
  hora : String
  is_active : Bool
  deriving Repr, DecidableEq

structure AgendamentosState where
  rows : List Agendamento
  nextId : Nat
  deriving Repr, DecidableEq

/-- `frequencia_map.get(schedule_type, 'DIARIA')`: the dict lookup with its
default. -/
def frequencia_map (schedule_type : String) : String :=
  match schedule_type with
  | "daily" => "DIARIA"
  | "weekly" => "SEMANAL"
  | "monthly" => "MENSAL"
  | _ => "DIARIA"

/-- `DatabaseManager.create_schedule` (database.py lines 452-502).  The CHECK
constraint on `tipo_operacao` makes the INSERT raise for a value outside
ENVIAR/BUSCAR (the method re-raises); `frequencia` always passes its CHECK
because the dict lookup defaults to DIARIA.  Returns the new row id. -/
def create_schedule (st : AgendamentosState) (operation_type schedule_type
    schedule_time : String) (schedule_day : Option Int) (is_active : Bool) :
    Except String (AgendamentosState × Nat) :=
  let frequencia := frequencia_map schedule_type
  let dias_semana := schedule_day.map (fun d => [d])
  let newRow : Agendamento :=
    ⟨st.nextId, operation_type, frequencia, dias_semana, schedule_time,
      is_active⟩
  if operation_type ≠ "ENVIAR" ∧ operation_type ≠ "BUSCAR" then
    Except.error "CHECK constraint failed: tipo_operacao"
  else
    Except.ok ({ rows := st.rows ++ [newRow], nextId := st.nextId + 1 },
      st.nextId)

/-- `DatabaseManager.update_schedule` (database.py lines 504-545): same field
mapping, `UPDATE ... WHERE id = ?`. -/
def update_schedule (st : AgendamentosState) (schedule_id : Nat)
    (operation_type schedule_type schedule_time : String)
    (schedule_day : Option Int) (is_active : Bool) :
    Except String AgendamentosState :=
  let frequencia := frequencia_map schedule_type
  let dias_semana := schedule_day.map (fun d => [d])
  if operation_type ≠ "ENVIAR" ∧ operation_type ≠ "BUSCAR" ∧
      st.rows.any (fun r => r.id == schedule_id) then
    Except.error "CHECK constraint failed: tipo_operacao"
  else
    Except.ok { st with
      rows := st.rows.map fun r =>
        if r.id == schedule_id then
          { r with tipo_operacao := operation_type, frequencia := frequencia,
                   dias_semana := dias_semana, hora := schedule_time,
                   is_active := is_active }
        else r }

/-! ### OrionTax connection configuration (src/config/database.py
lines 404-446) -/

/-- A row of the `config_oriontax` table. -/
structure ConfigOriontax where
  id : Nat
  host : String
  port : Int
  database_name : String
  username : String
  password_encrypted : String
  use_ssl : Bool
  is_active : Bool
  created_at : Nat
  deriving Repr, DecidableEq

structure ConfigOriontaxState where
  rows : List ConfigOriontax
  nextId : Nat
  deriving Repr, DecidableEq

/-- What `get_oriontax_config` hands back after decrypting: the row data with
`password_encrypted` removed and `password` attached. -/
structure ConfigOriontaxOut where
  id : Nat
  host : String
  port : Int
  database_name : String
  username : String
  password : String
  use_ssl : Bool
  is_active : Bool
  created_at : Nat
  deriving Repr, DecidableEq

/-- `DatabaseManager.save_oriontax_config` (database.py lines 404-425):
`UPDATE config_oriontax SET is_active = 0` on every row, then INSERT one fresh
row (active by column default).  `encrypt` is the encryption manager's
`encrypt`; `now` the insertion timestamp. -/
def save_oriontax_config (encrypt : String → String) (now : Nat)
    (st : ConfigOriontaxState) (host : String) (port : Int)
    (database_name username password : String) (use_ssl : Bool) :
    ConfigOriontaxState × Bool :=
  let deactivated := st.rows.map fun r => { r with is_active := false }
  let newRow : ConfigOriontax :=
    ⟨st.nextId, host, port, database_name, username, encrypt password, use_ssl,
      true, now⟩
  ({ rows := deactivated ++ [newRow], nextId := st.nextId + 1 }, true)

/-- `SELECT * FROM config_oriontax WHERE is_active = 1 ORDER BY created_at
DESC LIMIT 1`: among the active rows, one with the greatest `created_at`
(SQLite leaves the order of ties unspecified; this model keeps the earliest
listed of the tied rows, which is immaterial once only one row is active). -/
def mostRecentActive (rows : List ConfigOriontax) : Option ConfigOriontax :=
  (rows.filter (fun r => r.is_active)).foldl
    (fun acc r =>
      match acc with
      | Option.none => some r
      | some a => if r.created_at > a.created_at then some r else some a)
    Option.none

/-- `DatabaseManager.get_oriontax_config` (database.py lines 427-446): read
the single most-recent active row, decrypt its password into the returned
dict. -/
def get_oriontax_config (decrypt : String → String)
    (st : ConfigOriontaxState) : Option ConfigOriontaxOut :=
  (mostRecentActive st.rows).map fun r =>
    ⟨r.id, r.host, r.port, r.database_name, r.username,
      decrypt r.password_encrypted, r.use_ssl, r.is_active, r.created_at⟩

/-! ### Operator accounts and password change (src/config/database.py
lines 839-880) -/

/-- A row of the `usuarios` table. -/
structure Usuario where
  id : Nat
  username : String
  password_hash : String
  nome_completo : String
  email : Option String
  is_active : Bool
  deriving Repr, DecidableEq

structure UsuariosState where
  rows : List Usuario
  deriving Repr, DecidableEq

/-- Result of `change_password`: (possibly updated rows, success, message). -/
def change_password (hashPassword : String → String)
    (verifyPassword : String → String → Bool) (st : UsuariosState)
    (username old_password new_password : String) :
    UsuariosState × Bool × String :=
  match st.rows.find? (fun r => r.username == username && r.is_active) with
  | Option.none => (st, false, "Usuário não encontrado")
  | some user =>
    if verifyPassword old_password user.password_hash then
      ({ rows := st.rows.map fun r =>
          if r.id == user.id then
            { r with password_hash := hashPassword new_password }
          else r },
       true, "Senha alterada com sucesso!")
    else (st, false, "Senha atual incorreta")

/-! ### Encryption manager (src/config/encryption.py lines 53-85)

The Fernet cipher is an external library; the model takes it as a parameter.
`FernetCipher.enc` stands for `Fernet.encrypt` (token as text) and
`FernetCipher.dec` for `Fernet.decrypt`, `Option.none` standing for a raised
`InvalidToken`.  The library's documented contract (authenticated encryption:
tokens round-trip, tokens are never the empty string, anything that is not a
token of this key is rejected) enters the theorems as hypotheses. -/

structure FernetCipher where
  enc : String → String
  dec : String → Option String

/-- Tokens decrypt back to their plaintext. -/
def FernetCipher.RoundTrips (c : FernetCipher) : Prop :=
  ∀ p, c.dec (c.enc p) = some p

/-- A Fernet token is never the empty string. -/
def FernetCipher.TokensNonEmpty (c : FernetCipher) : Prop :=
  ∀ p, c.enc p ≠ ""

/-- Authenticated: anything that is not a token of this key fails to
decrypt. -/
def FernetCipher.RejectsForeign (c : FernetCipher) : Prop :=
  ∀ t, (∀ p, c.enc p ≠ t) → c.dec t = Option.none

/-- `EncryptionManager.encrypt` (encryption.py lines 53-68): empty input
short-circuits to the empty string, otherwise the cipher runs. -/
def EncryptionManager.encrypt (c : FernetCipher) (plaintext : String) :
    String :=
  if plaintext = "" then "" else c.enc plaintext

/-- `EncryptionManager.decrypt` (encryption.py lines 70-85): empty input
short-circuits to the empty string, otherwise the cipher authenticates and
decrypts (raising on failure, modelled as `Option.none`). -/
def EncryptionManager.decrypt (c : FernetCipher) (ciphertext : String) :
    Option String :=
  if ciphertext = "" then some "" else c.dec ciphertext

/-- A concrete cipher satisfying the Fernet contract, used to instantiate the
conditional theorems: a token is the plaintext tagged with a leading 'E'. -/
def tagCipher : FernetCipher where
  enc p := String.mk ('E' :: p.data)
  dec t :=
    match t.data with
    | 'E' :: rest => some (String.mk rest)
    | _ => Option.none

theorem tagCipher_roundTrips : tagCipher.RoundTrips := fun _ => rfl

theorem tagCipher_tokensNonEmpty : tagCipher.TokensNonEmpty := by
  intro p h
  have : ('E' :: p.data) = ([] : List Char) := congrArg String.data h
  exact List.noConfusion this

theorem tagCipher_rejectsForeign : tagCipher.RejectsForeign := by
  intro t h
  match ht : t.data with
  | 'E' :: rest =>
    exact absurd (show tagCipher.enc (String.mk rest) = t from
      congrArg String.mk ht.symm) (h (String.mk rest))
  | [] => simp [tagCipher, ht]
  | c :: rest =>
    simp only [tagCipher, ht]
    split
    · rename_i heq
      cases heq
      exact absurd (show tagCipher.enc (String.mk rest) = t from
        congrArg String.mk ht.symm) (h (String.mk rest))
    · rfl

/-! ### Oracle client: `test_connection` (src/core/oracle_client.py
lines 188-222)

The method runs `self.connect()` (ending thin, or thick after the DPY-3010
fallback, or raising), `SELECT 1 FROM DUAL`, the `v$version` probe, then
`cursor.close(); self.disconnect(); return True, ...`.  The catch-all
`except` returns `(False, "Erro: " + str(e))` — with no `disconnect()` call.
A world fixes the outcome of each database interaction; the model returns the
`(success, message)` pair together with the final `self.connection`. -/

inductive OraMode
  | thin
  | thick
  deriving Repr, DecidableEq

def modeStr : OraMode → String
  | OraMode.thin => "thin"
  | OraMode.thick => "thick"

/-- Outcomes of the three database interactions `test_connection` performs. -/
structure OracleWorld where
  connectResult : Except String OraMode
  probeResult : Except String Unit
  versionResult : Except String String
  deriving Repr

/-- `OracleClient.test_connection`, returning `((success, message),
final self.connection)`. -/
def test_connection (w : OracleWorld) : (Bool × String) × Option OraMode :=
  match w.connectResult with
  | Except.error e => ((false, "Erro: " ++ e), Option.none)
  | Except.ok mode =>
    match w.probeResult with
    | Except.error e => ((false, "Erro: " ++ e), some mode)
    | Except.ok _ =>
      match w.versionResult with
      | Except.error e => ((false, "Erro: " ++ e), some mode)
      | Except.ok version =>
        ((true, "Conexão bem-sucedida (modo " ++ modeStr mode ++ ")\n" ++
          version), Option.none)

/-! ### Oracle client: the staging-table write path
(src/core/oracle_client.py lines 14-58, 260-482, 538-640)

Cells are Python values as pandas delivers them; `PyFloat` models a Python
float (ℚ for the finite values).  `pandas.to_datetime(·, errors="coerce")`
and Python's `str()` of a float are external primitives the claims never
depend on, taken as parameters in `PyEnv`. -/

inductive PyFloat
  | finite (q : ℚ)
  | nan
  | inf
  | ninf
  deriving Repr, DecidableEq

inductive PyVal
  | none
  | str (s : String)
  | float (f : PyFloat)
  | int (n : ℤ)
  deriving Repr, DecidableEq

/-- pandas column dtypes relevant here: `object` (strings / None), `float64`,
`int64`. -/
inductive Dtype
  | obj
  | f64
  | i64
  deriving Repr, DecidableEq

/-- External primitives of the pandas/python runtime. -/
structure PyEnv where
  toDatetime : PyVal → PyVal
  floatStr : PyFloat → String

/-- Python `str.strip()`. -/
def stripWs (s : String) : String :=
  String.mk
    (((s.data.dropWhile Char.isWhitespace).reverse.dropWhile
      Char.isWhitespace).reverse)

/-- Python `str.lower()` (ASCII, which covers every string the code
compares). -/
def pyLower (s : String) : String :=
  String.mk (s.data.map Char.toLower)

/-- Python `str.upper()` on a column name. -/
def pyUpper (s : String) : String :=
  String.mk (s.data.map Char.toUpper)

/-- `value.replace(",", ".")`: both arguments are single characters, so the
substring replacement is a character map. -/
def replaceCommaDot (s : String) : String :=
  String.mk (s.data.map fun c => if c = ',' then '.' else c)

/-- `"DATA" in col or col.startswith("DT_")`. -/
def isDateCol (name : String) : Bool :=
  decide ("DATA".data <:+: name.data) || "DT_".data.isPrefixOf name.data

/-- `str(value)` for the values an object column can hold. -/
def pyStr (env : PyEnv) : PyVal → String
  | PyVal.none => "None"
  | PyVal.str s => s
  | PyVal.float f => env.floatStr f
  | PyVal.int n => toString n

/-- `TABLE_COLUMNS` (oracle_client.py lines 14-38). -/
def TABLE_COLUMNS (table_name : String) : Option (List String) :=
  match table_name with
  | "MXF_TMP_ICMS_SAIDA" => some
      ["CODIGO_PRODUTO", "EAN", "NCM", "FUNDAMENTO_LEGAL", "CEST",
       "FECP", "SSS_CSOSN", "SNC_CST", "SNC_ALQ", "SNC_ALQST",
       "SNC_RBC", "SNC_RBCST", "SNC_CBENEF", "SNC_ALQ_BENEF",
       "SAC_CST", "SAC_ALQ", "SAC_ALQST", "SAC_RBC", "SAC_RBCST",
       "SAC_CBENEF", "SAC_ALQ_BENEF",
       "SVC_CST", "SVC_ALQ", "SVC_ALQST", "SVC_RBC", "SVC_RBCST"]
  | "MXF_TMP_PIS_COFINS" => some
      ["CODIGO_PRODUTO", "EAN", "NCM", "COD_NATUREZA_RECEITA",
       "PIS_CST_E", "PIS_ALQ_E", "PIS_CST_S", "PIS_ALQ_S",
       "COFINS_CST_E", "COFINS_ALQ_E", "COFINS_CST_S", "COFINS_ALQ_S",
       "FUNDAMENTO_LEGAL"]
  | "MXF_TMP_CBS_IBS" => some
      ["CODIGO_PRODUTO", "EAN", "CCLASSTRIB", "CST_CBS_IBS",
       "ALQ_CBS", "RBC_CBS", "ALQ_IBS", "RBC_IBS",
       "ALQ_IBS_MUN", "RBC_IBS_MUN",
       "ALQ_IS", "ALQ_IS_ESPEC", "CST_IS", "CCLASSTRIB_IS",
       "FUNDAMENTO_LEGAL"]
  | _ => Option.none

/-- `TABLE_NUMBER_COLUMNS` (oracle_client.py lines 40-58); `.get(table_name,
set())` yields the empty set for an unmapped table. -/
def TABLE_NUMBER_COLUMNS (table_name : String) : List String :=
  match table_name with
  | "MXF_TMP_ICMS_SAIDA" =>
      ["FECP", "SNC_ALQ", "SNC_ALQST", "SNC_RBC", "SNC_RBCST",
       "SNC_ALQ_BENEF",
       "SAC_ALQ", "SAC_ALQST", "SAC_RBC", "SAC_RBCST", "SAC_ALQ_BENEF",
       "SVC_ALQ", "SVC_ALQST", "SVC_RBC", "SVC_RBCST"]
  | "MXF_TMP_PIS_COFINS" =>
      ["PIS_ALQ_E", "PIS_ALQ_S", "COFINS_ALQ_E", "COFINS_ALQ_S"]
  | "MXF_TMP_CBS_IBS" =>
      ["ALQ_CBS", "RBC_CBS", "ALQ_IBS", "RBC_IBS",
       "ALQ_IBS_MUN", "RBC_IBS_MUN", "ALQ_IS", "ALQ_IS_ESPEC"]
  | _ => []

def isNumberCol (table_name col_name : String) : Bool :=
  (TABLE_NUMBER_COLUMNS table_name).contains col_name

/-- The `expected_cols` literal of each per-table INSERT statement
(oracle_client.py lines 320-372). -/
def expectedColsCount (table_name : String) : Option Nat :=
  match table_name with
  | "MXF_TMP_ICMS_SAIDA" => some 26
  | "MXF_TMP_PIS_COFINS" => some 13
  | "MXF_TMP_CBS_IBS" => some 15
  | _ => Option.none

/-! #### Python `float(str)` -/

def natOfDigits (cs : List Char) : Nat :=
  cs.foldl (fun acc c => 10 * acc + (c.toNat - '0'.toNat)) 0

/-- A non-empty all-digit character run, or nothing. -/
def digitsVal (cs : List Char) : Option Nat :=
  if cs.isEmpty then Option.none
  else if cs.all Char.isDigit then some (natOfDigits cs) else Option.none

/-- The exponent part after `e`: optional sign then digits. -/
def parseExpPart (cs : List Char) : Option Int :=
  match cs with
  | '+' :: rest => (digitsVal rest).map Int.ofNat
  | '-' :: rest => (digitsVal rest).map (fun n => -(n : Int))
  | _ => (digitsVal cs).map Int.ofNat

/-- `digits[.digits]` with at least one digit overall. -/
def parseMantissa (cs : List Char) : Option ℚ :=
  match cs.splitOn '.' with
  | [ip] => (digitsVal ip).map (fun n => (n : ℚ))
  | [ip, fp] =>
    if ip.isEmpty && fp.isEmpty then Option.none
    else if (ip ++ fp).all Char.isDigit then
      some ((natOfDigits ip : ℚ) + (natOfDigits fp : ℚ) / (10 : ℚ) ^ fp.length)
    else Option.none
  | _ => Option.none

/-- Python's `float(...)` on a string: strip whitespace, optional sign, then
case-insensitively `nan`/`inf`/`infinity` or a decimal literal with optional
exponent.  (Underscore digit grouping and non-ASCII digits, which Python also
accepts, are outside this model; no input of interest uses them.)
`Option.none` stands for a raised `ValueError`. -/
def pyFloatOfString (s : String) : Option PyFloat :=
  let t := (stripWs s).data
  let signed : Int × List Char :=
    match t with
    | '+' :: r => (1, r)
    | '-' :: r => (-1, r)
    | r => (1, r)
  let sgn := signed.1
  let low := signed.2.map Char.toLower
  if low = "nan".data then some PyFloat.nan
  else if low = "inf".data ∨ low = "infinity".data then
    some (if sgn = 1 then PyFloat.inf else PyFloat.ninf)
  else
    match low.splitOn 'e' with
    | [m] => (parseMantissa m).map (fun q => PyFloat.finite ((sgn : ℚ) * q))
    | [m, ex] =>
      (parseMantissa m).bind fun q =>
        (parseExpPart ex).map fun e =>
          PyFloat.finite ((sgn : ℚ) * q * (10 : ℚ) ^ e)
    | _ => Option.none

/-! #### `_normalize_dataframe_for_oracle` (oracle_client.py lines 260-281) -/

/-- One dataframe: named, typed columns and positional rows. -/
structure Dataframe where
  cols : List (String × Dtype)
  rows : List (List PyVal)
  deriving Repr

/-- The object-dtype branch of normalization, after `astype(str)` has turned
the cell into a string: `str.replace(",", ".")`, then the resulting column's
`.replace({"": None, "nan": None, "NaN": None})`. -/
def normalizeObjStr (s : String) : PyVal :=
  let s' := replaceCommaDot s
  if s' = "" ∨ s' = "nan" ∨ s' = "NaN" then PyVal.none else PyVal.str s'

/-- Per-cell normalization of one column: date-named columns go through
`pd.to_datetime(errors="coerce")`; object columns are stringified and
cleaned; other dtypes pass through. -/
def normalizeCell (env : PyEnv) (colName : String) (dt : Dtype) (v : PyVal) :
    PyVal :=
  if isDateCol colName then env.toDatetime v
  else if dt = Dtype.obj then normalizeObjStr (pyStr env v)
  else v

def normalizeDataframe (env : PyEnv) (df : Dataframe) : Dataframe :=
  { df with
    rows := df.rows.map fun row =>
      List.zipWith (fun cd v => normalizeCell env cd.1 cd.2 v) df.cols row }

/-! #### `clean_value` (oracle_client.py lines 382-426) -/

/-- `clean_value(value, col_name)`: the cleaned cell plus whether an
"invalid numeric value" error was logged for it.  Mirrors the source order:
`None` and float-NaN become null; strings are stripped, the lowercased
null tokens `none`/`null`/`""` become null, numeric-designated columns parse
the comma-fixed string as a float (null plus a logged error on failure);
non-string values in numeric-designated columns go through `float(value)`
(the identity on a float, widening on an int). -/
def clean_value (table_name col_name : String) (v : PyVal) : PyVal × Bool :=
  match v with
  | PyVal.none => (PyVal.none, false)
  | PyVal.float f =>
    if f = PyFloat.nan then (PyVal.none, false) else (PyVal.float f, false)
  | PyVal.str s =>
    let v' := stripWs s
    if pyLower v' = "none" ∨ pyLower v' = "null" ∨ pyLower v' = "" then
      (PyVal.none, false)
    else if isNumberCol table_name col_name then
      match pyFloatOfString (replaceCommaDot v') with
      | some f => (PyVal.float f, false)
      | Option.none => (PyVal.none, true)
    else (PyVal.str v', false)
  | PyVal.int n =>
    if isNumberCol table_name col_name then
      (PyVal.float (PyFloat.finite (n : ℚ)), false)
    else (PyVal.int n, false)

/-- The value a string cell of an object-dtype, non-date column carries into
the INSERT: normalization followed by `clean_value`. -/
def cleanedStagedStr (table_name col_name s : String) : PyVal × Bool :=
  clean_value table_name col_name (normalizeObjStr s)

/-! #### `_insert_dataframe_oracle` (oracle_client.py lines 283-482) -/

/-- `df.reindex(columns=expected)` followed by `row[col]` during `iterrows`:
each expected column takes the row's value at the (uppercased) original
column's position, or pandas' NaN fill when the column is absent. -/
def reindexedAt (origCols : List String) (row : List PyVal) (c : String) :
    PyVal :=
  match origCols.indexOf? c with
  | some i => row.getD i (PyVal.float PyFloat.nan)
  | Option.none => PyVal.float PyFloat.nan

/-- The `clean_row` list built for one dataframe row. -/
def cleanRow (table_name : String) (expected origCols : List String)
    (row : List PyVal) : List PyVal :=
  expected.map fun c => (clean_value table_name c (reindexedAt origCols row c)).1

/-- The `for row_idx, row in df.iterrows()` loop: clean each row, raising
`ValueError` at the first row whose value count differs from the INSERT
statement's `expected_cols`. -/
def cleanRowsLoop (table_name : String) (expected origCols : List String)
    (ec : Nat) : List (List PyVal) → Except String (List (List PyVal))
  | [] => Except.ok []
  | row :: rest =>
    let cr := cleanRow table_name expected origCols row
    if cr.length = ec then
      match cleanRowsLoop table_name expected origCols ec rest with
      | Except.ok rs => Except.ok (cr :: rs)
      | Except.error e => Except.error e
    else
      Except.error (table_name ++ " | Quantidade de colunas inválida: " ++
        toString cr.length ++ " (esperado " ++ toString ec ++ ")")

/-- `OracleClient._insert_dataframe_oracle`: look the table up in
`TABLE_COLUMNS` (ValueError if unmapped), pick the per-table INSERT and its
`expected_cols` literal (ValueError if unsupported), uppercase and reindex
the columns, clean each row (ValueError on a column-count mismatch), and feed
the rows to `executemany` in batches.  Batching only groups the `executemany`
calls; the inserted rows and the returned count are the same, so the model
returns `(the inserted rows, inserted_rows)`. -/
def insertDataframeOracle (table_name : String) (df : Dataframe) :
    Except String (List (List PyVal) × Nat) :=
  match TABLE_COLUMNS table_name with
  | Option.none =>
    Except.error ("Tabela não mapeada em TABLE_COLUMNS: " ++ table_name)
  | some expected =>
    match expectedColsCount table_name with
    | Option.none => Except.error ("Tabela não suportada: " ++ table_name)
    | some ec =>
      match cleanRowsLoop table_name expected
          (df.cols.map fun cd => pyUpper cd.1) ec df.rows with
      | Except.ok rows => Except.ok (rows, rows.length)
      | Except.error e => Except.error e

/-! #### `write_dataframes_to_tmp_tables` (oracle_client.py lines 538-640) -/

/-- The dict of dataframes handed to the write (each key may be absent). -/
structure TmpDataframes where
  icms_entrada : Option Dataframe
  icms_saida : Option Dataframe
  pis_cofins : Option Dataframe
  cbs_ibs : Option Dataframe

/-- One SQL effect of the write against the Oracle staging schema. -/
inductive DbOp
  | deleteAll (table : String)
  | insertRows (table : String) (rows : List (List PyVal))
  deriving Repr

/-- The body of the write loop for one `(df_key, table_name)` pair: skip an
absent key, skip an empty dataframe, skip `MXF_TMP_ICMS_ENTRADA` entirely,
else normalize and insert, adding the inserted count to the total. -/
def processTable (env : PyEnv) (table_name : String)
    (dfOpt : Option Dataframe) : Except String (List DbOp × Nat) :=
  match dfOpt with
  | Option.none => Except.ok ([], 0)
  | some df =>
    if df.rows.isEmpty then Except.ok ([], 0)
    else if table_name = "MXF_TMP_ICMS_ENTRADA" then Except.ok ([], 0)
    else do
      let (rows, n) ← insertDataframeOracle table_name (normalizeDataframe env df)
      Except.ok ([DbOp.insertRows table_name rows], n)

/-- The four unconditional `DELETE FROM` statements, in source order. -/
def tmpDeletes : List DbOp :=
  [DbOp.deleteAll "MXF_TMP_ICMS_ENTRADA", DbOp.deleteAll "MXF_TMP_ICMS_SAIDA",
   DbOp.deleteAll "MXF_TMP_PIS_COFINS", DbOp.deleteAll "MXF_TMP_CBS_IBS"]

/-- `OracleClient.write_dataframes_to_tmp_tables`: clear the four staging
tables, loop over the `table_map` entries in insertion order, commit once.
Returns the SQL effects, the total, and the success message (an exception
anywhere instead rolls back and propagates). -/
def write_dataframes_to_tmp_tables (env : PyEnv) (dfs : TmpDataframes) :
    Except String (List DbOp × Nat × String) := do
  let (o1, n1) ← processTable env "MXF_TMP_ICMS_ENTRADA" dfs.icms_entrada
  let (o2, n2) ← processTable env "MXF_TMP_ICMS_SAIDA" dfs.icms_saida
  let (o3, n3) ← processTable env "MXF_TMP_PIS_COFINS" dfs.pis_cofins
  let (o4, n4) ← processTable env "MXF_TMP_CBS_IBS" dfs.cbs_ibs
  let total := n1 + n2 + n3 + n4
  Except.ok (tmpDeletes ++ (o1 ++ o2 ++ o3 ++ o4), total,
    "✓ " ++ toString total ++ " registros inseridos no Oracle!")

/-- The contents of the four staging tables on the Oracle side. -/
structure OracleTmpState where
  icms_entrada : List (List PyVal)
  icms_saida : List (List PyVal)
  pis_cofins : List (List PyVal)
  cbs_ibs : List (List PyVal)
  deriving Repr

def applyOp (st : OracleTmpState) : DbOp → OracleTmpState
  | DbOp.deleteAll t =>
    match t with
    | "MXF_TMP_ICMS_ENTRADA" => { st with icms_entrada := [] }
    | "MXF_TMP_ICMS_SAIDA" => { st with icms_saida := [] }
    | "MXF_TMP_PIS_COFINS" => { st with pis_cofins := [] }
    | "MXF_TMP_CBS_IBS" => { st with cbs_ibs := [] }
    | _ => st
  | DbOp.insertRows t rs =>
    match t with
    | "MXF_TMP_ICMS_ENTRADA" => { st with icms_entrada := st.icms_entrada ++ rs }
    | "MXF_TMP_ICMS_SAIDA" => { st with icms_saida := st.icms_saida ++ rs }
    | "MXF_TMP_PIS_COFINS" => { st with pis_cofins := st.pis_cofins ++ rs }
    | "MXF_TMP_CBS_IBS" => { st with cbs_ibs := st.cbs_ibs ++ rs }
    | _ => st

def applyOps (st : OracleTmpState) (ops : List DbOp) : OracleTmpState :=
  ops.foldl applyOp st

/-! ### Shared helper lemmas -/

theorem string_data_append (a b : String) : (a ++ b).data = a.data ++ b.data :=
  rfl

theorem onlyDigits_mk (l : List Char) :
    onlyDigits (String.mk l) = String.mk (l.filter Char.isDigit) := rfl

theorem onlyDigits_append (a b : String) :
    onlyDigits (a ++ b) = onlyDigits a ++ onlyDigits b := by
  show String.mk _ = String.mk _
  simp [onlyDigits, string_data_append]

theorem onlyDigits_of_digits (l : List Char)
    (h : ∀ c ∈ l, c.isDigit = true) :
    onlyDigits (String.mk l) = String.mk l := by
  simp [onlyDigits, List.filter_eq_self.mpr h]

theorem map_eq_self_of_eq {α : Type} (l : List α) (f : α → α)
    (h : ∀ a ∈ l, f a = a) : l.map f = l := by
  induction l with
  | nil => rfl
  | cons x xs ih =>
    simp only [List.map_cons, h x (List.mem_cons_self x xs)]
    rw [ih fun a ha => h a (List.mem_cons_of_mem x ha)]

/-! ### Claim C3 -/

/-- The five mask segments reassemble the full digit list. -/
theorem take_drop_reassemble (d : List Char) :
    d.take 2 ++ ((d.drop 2).take 3 ++ ((d.drop 5).take 3 ++
      ((d.drop 8).take 4 ++ d.drop 12))) = d := by
  have e5 : (d.drop 2).drop 3 = d.drop 5 := by rw [List.drop_drop]
  have e8 : (d.drop 5).drop 3 = d.drop 8 := by rw [List.drop_drop]
  have e12 : (d.drop 8).drop 4 = d.drop 12 := by rw [List.drop_drop]
  rw [← e12, List.take_append_drop, ← e8, List.take_append_drop,
    ← e5, List.take_append_drop, List.take_append_drop]

/-- Filtering the formatted CNPJ back to digits recovers the digits. -/
theorem onlyDigits_format (s : String)
    (h14 : (onlyDigits s).length = 14) :
    onlyDigits (format_cnpj s) = onlyDigits s := by
  have hdig : ∀ c ∈ (onlyDigits s).data, c.isDigit = true := fun c hc =>
    (List.mem_filter.mp hc).2
  rw [format_cnpj, if_neg (by simp [h14])]
  rw [onlyDigits_append, onlyDigits_append, onlyDigits_append,
    onlyDigits_append, onlyDigits_append, onlyDigits_append,
    onlyDigits_append, onlyDigits_append]
  have hsep1 : onlyDigits "." = "" := by decide
  have hsep2 : onlyDigits "/" = "" := by decide
  have hsep3 : onlyDigits "-" = "" := by decide
  rw [hsep1, hsep2, hsep3]
  rw [onlyDigits_of_digits _ (fun c hc => hdig c (List.mem_of_mem_take hc)),
    onlyDigits_of_digits _ (fun c hc =>
      hdig c (List.mem_of_mem_drop (List.mem_of_mem_take hc))),
    onlyDigits_of_digits _ (fun c hc =>
      hdig c (List.mem_of_mem_drop (List.mem_of_mem_take hc))),
    onlyDigits_of_digits _ (fun c hc =>
      hdig c (List.mem_of_mem_drop (List.mem_of_mem_take hc))),
    onlyDigits_of_digits _ (fun c hc => hdig c (List.mem_of_mem_drop hc))]
  show String.mk _ = onlyDigits s
  have hmk : onlyDigits s = String.mk (onlyDigits s).data := rfl
  rw [hmk]
  apply congrArg String.mk
  simp only [String.data]
  simp only [List.append_assoc, List.nil_append, List.append_nil]
  exact take_drop_reassemble (onlyDigits s).data

/-- A successful `update_cliente` leaves the target row holding exactly the
normalized digits. -/
theorem update_cliente_stores_digits (st : ClientesState) (cid : Nat)
    (nome s : String) (h14 : (onlyDigits s).length = 14) :
    ∀ r ∈ (update_cliente st cid nome s).1.rows,
      (update_cliente st cid nome s).2 = true → r.id = cid →
        r.cnpj = onlyDigits s := by
  intro r hr hsucc hid
  rw [update_cliente, if_neg (by simp [h14])] at hr hsucc
  by_cases hcoll : ((st.rows.any fun r => r.id == cid) &&
      (st.rows.any fun r => r.id != cid && r.cnpj == onlyDigits s)) = true
  · rw [if_pos hcoll] at hsucc
    exact absurd hsucc (by simp)
  · rw [if_neg hcoll] at hr
    simp only at hr
    rcases List.mem_map.mp hr with ⟨r0, _, hr0⟩
    by_cases hid0 : (r0.id == cid) = true
    · rw [if_pos hid0] at hr0
      rw [← hr0]
    · rw [if_neg hid0] at hr0
      subst hr0
      exact absurd (beq_iff_eq.mpr hid) hid0

/-- **C3.**  For every input string with exactly 14 digit characters among
arbitrary non-digits, client creation/update stores the 14 digits only and
`format_cnpj` renders them as `NN.NNN.NNN/NNNN-NN` (digits preserved); for
every input whose digit count differs from 14, `create_cliente` and
`update_cliente` return `false` without touching the table and `format_cnpj`
returns its input unchanged.  The spec's example instances are included. -/
theorem c3_cnpj_normalization_and_format :
    ∀ (st : ClientesState) (cid : Nat) (nome s : String),
      ((onlyDigits s).length = 14 →
        (¬ (st.rows.any fun r => r.cnpj == onlyDigits s) = true →
          create_cliente st nome s =
            ({ rows := st.rows ++ [⟨st.nextId, nome, onlyDigits s, true⟩],
               nextId := st.nextId + 1 }, true)) ∧
        format_cnpj s =
          String.mk ((onlyDigits s).data.take 2) ++ "." ++
            String.mk (((onlyDigits s).data.drop 2).take 3) ++ "." ++
            String.mk (((onlyDigits s).data.drop 5).take 3) ++ "/" ++
            String.mk (((onlyDigits s).data.drop 8).take 4) ++ "-" ++
            String.mk ((onlyDigits s).data.drop 12) ∧
        onlyDigits (format_cnpj s) = onlyDigits s ∧
        (∀ r ∈ (update_cliente st cid nome s).1.rows,
            (update_cliente st cid nome s).2 = true → r.id = cid →
              r.cnpj = onlyDigits s)) ∧
      ((onlyDigits s).length ≠ 14 →
        create_cliente st nome s = (st, false) ∧
        update_cliente st cid nome s = (st, false) ∧
        format_cnpj s = s) ∧
      onlyDigits "12.345.678/0001-90" = "12345678000190" ∧
      format_cnpj "12345678000190" = "12.345.678/0001-90" ∧
      format_cnpj "12.345.678/0001-90" = "12.345.678/0001-90" := by
  intro st cid nome s
  refine ⟨fun h14 => ⟨?_, ?_, onlyDigits_format s h14,
      update_cliente_stores_digits st cid nome s h14⟩,
    fun h14 => ⟨?_, ?_, ?_⟩, by decide, by decide, by decide⟩
  · intro hfree
    rw [create_cliente, if_neg (by simp [h14]), if_neg hfree]
  · rw [format_cnpj, if_neg (by simp [h14])]
  · rw [create_cliente, if_pos h14]
  · rw [update_cliente, if_pos h14]
  · rw [format_cnpj, if_pos h14]

/-! ### Claim C9 -/

/-- **C9.**  `update_cliente` and `delete_cliente` report success for every
client id: with a well-formed CNPJ and no uniqueness conflict the update
returns `true` whether or not any row has that id (and whether or not the row
is active), `delete_cliente` returns `true` unconditionally, and for an id
that matches no row both return `true` with the table byte-for-byte
unchanged — so a `true` return does not imply any row was changed. -/
theorem c9_zero_row_update_reports_success :
    ∀ (st : ClientesState) (cid : Nat) (nome cnpj : String),
      ((onlyDigits cnpj).length = 14 →
        ¬ (st.rows.any fun r => r.id != cid && r.cnpj == onlyDigits cnpj) =
          true →
        (update_cliente st cid nome cnpj).2 = true) ∧
      ((delete_cliente st cid).2 = true) ∧
      (cid ∉ st.rows.map (fun r => r.id) →
        ((onlyDigits cnpj).length = 14 →
          update_cliente st cid nome cnpj = (st, true)) ∧
        delete_cliente st cid = (st, true)) := by
  intro st cid nome cnpj
  refine ⟨fun h14 hfree => ?_, rfl, fun hid => ⟨fun h14 => ?_, ?_⟩⟩
  · have hany2 : (st.rows.any fun r =>
        r.id != cid && r.cnpj == onlyDigits cnpj) = false :=
      Bool.eq_false_iff.mpr hfree
    rw [update_cliente, if_neg (by simp [h14]), if_neg (by simp [hany2])]
  · have hmap : (st.rows.map fun r =>
        if r.id == cid then { r with nome := nome, cnpj := onlyDigits cnpj }
        else r) = st.rows := by
      apply map_eq_self_of_eq
      intro r hr
      rw [if_neg]
      simp only [beq_iff_eq]
      intro hcontra
      exact hid (hcontra ▸ List.mem_map.mpr ⟨r, hr, rfl⟩)
    have hany : (st.rows.any fun r => r.id == cid) = false := by
      rw [List.any_eq_false]
      intro r hr
      simp only [beq_iff_eq]
      intro hcontra
      exact hid (hcontra ▸ List.mem_map.mpr ⟨r, hr, rfl⟩)
    rw [update_cliente, if_neg (by simp [h14]), if_neg (by simp [hany])]
    simp only [hmap]
  · have hmap : (st.rows.map fun r =>
        if r.id == cid then { r with is_active := false } else r) =
        st.rows := by
      apply map_eq_self_of_eq
      intro r hr
      rw [if_neg]
      simp only [beq_iff_eq]
      intro hcontra
      exact hid (hcontra ▸ List.mem_map.mpr ⟨r, hr, rfl⟩)
    rw [delete_cliente]
    simp only [hmap]

/-! ### Claim C10 -/

/-- `frequencia_map` falls back to DIARIA on every unmapped key. -/
theorem frequencia_map_default (s : String) (h1 : s ≠ "daily")
    (h2 : s ≠ "weekly") (h3 : s ≠ "monthly") :
    frequencia_map s = "DIARIA" := by
  unfold frequencia_map
  split
  · exact absurd rfl h1
  · exact absurd rfl h2
  · exact absurd rfl h3
  · rfl

/-- **C10.**  `create_schedule` and `update_schedule` accept any
`schedule_type` string: every value outside `daily`/`weekly`/`monthly` is
silently stored as the frequency `DIARIA` (the row is inserted/updated, no
rejection and no exception), so a mistyped schedule type persists as a daily
schedule. -/
theorem c10_schedule_type_unvalidated :
    ∀ (st : AgendamentosState) (sid : Nat)
      (operation_type schedule_type schedule_time : String)
      (schedule_day : Option Int) (is_active : Bool),
      (operation_type = "ENVIAR" ∨ operation_type = "BUSCAR") →
      schedule_type ≠ "daily" → schedule_type ≠ "weekly" →
      schedule_type ≠ "monthly" →
      create_schedule st operation_type schedule_type schedule_time
          schedule_day is_active =
        Except.ok (⟨st.rows ++
            [⟨st.nextId, operation_type, "DIARIA",
              schedule_day.map (fun d => [d]), schedule_time, is_active⟩],
            st.nextId + 1⟩, st.nextId) ∧
      update_schedule st sid operation_type schedule_type schedule_time
          schedule_day is_active =
        Except.ok ⟨st.rows.map fun r =>
          if r.id == sid then
            (⟨r.id, operation_type, "DIARIA", schedule_day.map (fun d => [d]),
              schedule_time, is_active⟩ : Agendamento)
          else r, st.nextId⟩ := by
  intro st sid op stype time day act hop h1 h2 h3
  have hfreq := frequencia_map_default stype h1 h2 h3
  have hopne : ¬ (op ≠ "ENVIAR" ∧ op ≠ "BUSCAR") := by
    rcases hop with h | h <;> simp [h]
  constructor
  · rw [create_schedule]
    simp only [hfreq]
    rw [if_neg hopne]
  · rw [update_schedule]
    simp only [hfreq]
    rw [if_neg (by rcases hop with h | h <;> simp [h])]

/-- Witness for C10 at a concrete mistyped schedule type (`"dialy"`). -/
theorem c10_schedule_type_unvalidated_witness :
    create_schedule ⟨[], 1⟩ "ENVIAR" "dialy" "08:00" Option.none true =
      Except.ok (⟨[⟨1, "ENVIAR", "DIARIA", Option.none, "08:00", true⟩],
        2⟩, 1) ∧
    update_schedule ⟨[], 1⟩ 1 "ENVIAR" "dialy" "08:00" Option.none true =
      Except.ok ⟨[], 1⟩ := by
  have h := c10_schedule_type_unvalidated ⟨[], 1⟩ 1 "ENVIAR" "dialy" "08:00"
    Option.none true (Or.inl rfl) (by decide) (by decide) (by decide)
  exact ⟨h.1, h.2⟩

/-! ### Claim C4 -/

/-- **C4.**  `change_password` verifies before writing: an unknown (or
inactive) username yields `(false, "Usuário não encontrado")` and a failed
verification of the old password yields `(false, "Senha atual incorreta")`,
in both cases with the account table returned exactly as it was; only when
verification succeeds is the found user's `password_hash` replaced by a hash
of the new password (all other rows and fields unchanged). -/
theorem c4_change_password_verifies_before_write :
    ∀ (hashPassword : String → String)
      (verifyPassword : String → String → Bool) (st : UsuariosState)
      (username old_password new_password : String),
      (st.rows.find? (fun r => r.username == username && r.is_active) =
          Option.none →
        change_password hashPassword verifyPassword st username old_password
          new_password = (st, false, "Usuário não encontrado")) ∧
      (∀ u, st.rows.find? (fun r => r.username == username && r.is_active) =
          some u →
        (verifyPassword old_password u.password_hash = false →
          change_password hashPassword verifyPassword st username old_password
            new_password = (st, false, "Senha atual incorreta")) ∧
        (verifyPassword old_password u.password_hash = true →
          change_password hashPassword verifyPassword st username old_password
            new_password =
            (⟨st.rows.map fun r =>
              if r.id == u.id then
                (⟨r.id, r.username, hashPassword new_password,
                  r.nome_completo, r.email, r.is_active⟩ : Usuario)
              else r⟩, true, "Senha alterada com sucesso!"))) := by
  intro hashPassword verifyPassword st username old_password new_password
  refine ⟨fun hnone => ?_, fun u hu => ⟨fun hv => ?_, fun hv => ?_⟩⟩
  · simp only [change_password, hnone]
  · simp only [change_password, hu, hv]
    rfl
  · simp only [change_password, hu, hv]
    rfl

/-! ### Claim C5 -/

/-- Deactivating every row leaves nothing active. -/
theorem filter_deactivated (l : List ConfigOriontax) :
    (l.map fun r => { r with is_active := false }).filter
      (fun r => r.is_active) = [] := by
  induction l with
  | nil => rfl
  | cons x xs ih => simp [List.filter_cons, ih]

/-- **C5.**  Every `save_oriontax_config` call succeeds after deactivating
all existing `config_oriontax` rows and inserting exactly one new active row:
afterwards exactly one row is active (the new one), every earlier row is
retained with all its data but inactive, and `get_oriontax_config` returns
the new row's data with the password decrypted. -/
theorem c5_single_active_oriontax_config :
    ∀ (encrypt decrypt : String → String) (now : Nat)
      (st : ConfigOriontaxState) (host : String) (port : Int)
      (database_name username password : String) (use_ssl : Bool),
      (save_oriontax_config encrypt now st host port database_name username
          password use_ssl).2 = true ∧
      ((save_oriontax_config encrypt now st host port database_name username
          password use_ssl).1.rows.filter fun r => r.is_active) =
        [⟨st.nextId, host, port, database_name, username, encrypt password,
          use_ssl, true, now⟩] ∧
      ((save_oriontax_config encrypt now st host port database_name username
          password use_ssl).1.rows.map fun r =>
            (r.id, r.host, r.port, r.database_name, r.username,
              r.password_encrypted, r.use_ssl, r.created_at)) =
        (st.rows.map fun r =>
            (r.id, r.host, r.port, r.database_name, r.username,
              r.password_encrypted, r.use_ssl, r.created_at)) ++
          [(st.nextId, host, port, database_name, username, encrypt password,
            use_ssl, now)] ∧
      (decrypt (encrypt password) = password →
        get_oriontax_config decrypt
            (save_oriontax_config encrypt now st host port database_name
              username password use_ssl).1 =
          some ⟨st.nextId, host, port, database_name, username, password,
            use_ssl, true, now⟩) := by
  intro encrypt decrypt now st host port database_name username password
    use_ssl
  have hfilter : ((save_oriontax_config encrypt now st host port database_name
      username password use_ssl).1.rows.filter fun r => r.is_active) =
      [⟨st.nextId, host, port, database_name, username, encrypt password,
        use_ssl, true, now⟩] := by
    simp only [save_oriontax_config]
    rw [List.filter_append, filter_deactivated]
    rfl
  refine ⟨rfl, hfilter, ?_, fun hdec => ?_⟩
  · simp only [save_oriontax_config]
    rw [List.map_append, List.map_map]
    rfl
  · simp only [get_oriontax_config, mostRecentActive]
    rw [hfilter]
    simp only [List.foldl, Option.map]
    rw [hdec]

/-! ### Claim C2 -/

/-- **C2 (amended).**  For any cipher with the Fernet contract: non-empty
plaintexts round-trip exactly; `encrypt ""` and `decrypt ""` both give `""`;
decrypting a non-empty string that is not a token of the underlying cipher
raises a decryption error, and whenever `decrypt` does return a plaintext for
a non-empty input, that plaintext is the authentic one for the token — so
`decrypt` never silently returns wrong plaintext.  (Unamendable part of the
original claim: a cipher-made token *of the empty plaintext* is not produced
by `EncryptionManager.encrypt`, which maps `""` to `""`, yet decrypts to `""`
without error — see the counterexample.) -/
theorem c2_secret_roundtrip_amended :
    ∀ (c : FernetCipher), c.RoundTrips → c.TokensNonEmpty →
      c.RejectsForeign →
      (∀ p, p ≠ "" →
        EncryptionManager.decrypt c (EncryptionManager.encrypt c p) =
          some p) ∧
      EncryptionManager.encrypt c "" = "" ∧
      EncryptionManager.decrypt c "" = some "" ∧
      (∀ t, t ≠ "" → (∀ p, c.enc p ≠ t) →
        EncryptionManager.decrypt c t = Option.none) ∧
      (∀ t p', t ≠ "" →
        EncryptionManager.decrypt c t = some p' → c.enc p' = t) := by
  intro c hrt hne hauth
  refine ⟨fun p hp => ?_, rfl, rfl, fun t ht hforeign => ?_,
    fun t p' ht hdec => ?_⟩
  · rw [EncryptionManager.encrypt, if_neg hp, EncryptionManager.decrypt,
      if_neg (hne p)]
    exact hrt p
  · rw [EncryptionManager.decrypt, if_neg ht]
    exact hauth t hforeign
  · rw [EncryptionManager.decrypt, if_neg ht] at hdec
    by_cases h : ∀ p, c.enc p ≠ t
    · rw [hauth t h] at hdec
      exact absurd hdec (by simp)
    · push_neg at h
      obtain ⟨p, hp⟩ := h
      rw [← hp, hrt p] at hdec
      obtain rfl : p = p' := Option.some.inj hdec
      exact hp

/-- Witness for C2 at the concrete contract-satisfying cipher. -/
theorem c2_secret_roundtrip_amended_witness :
    (∀ p, p ≠ "" →
      EncryptionManager.decrypt tagCipher
        (EncryptionManager.encrypt tagCipher p) = some p) ∧
    EncryptionManager.encrypt tagCipher "" = "" ∧
    EncryptionManager.decrypt tagCipher "" = some "" ∧
    (∀ t, t ≠ "" → (∀ p, tagCipher.enc p ≠ t) →
      EncryptionManager.decrypt tagCipher t = Option.none) ∧
    (∀ t p', t ≠ "" →
      EncryptionManager.decrypt tagCipher t = some p' →
        tagCipher.enc p' = t) :=
  c2_secret_roundtrip_amended tagCipher tagCipher_roundTrips
    tagCipher_tokensNonEmpty tagCipher_rejectsForeign

/-- **C2 counterexample.**  A cipher satisfying the full Fernet contract
under which the claim's "decrypting any non-empty string that was not
produced by encrypt raises a decryption error" fails: the cipher's token of
the empty plaintext (here `"E"`) is produced by `EncryptionManager.encrypt`
for no input, yet `EncryptionManager.decrypt` returns `""` for it instead of
raising. -/
theorem c2_counterexample_foreign_empty_token :
    tagCipher.RoundTrips ∧ tagCipher.TokensNonEmpty ∧
    tagCipher.RejectsForeign ∧
    "E" ≠ "" ∧ (∀ p, EncryptionManager.encrypt tagCipher p ≠ "E") ∧
    EncryptionManager.decrypt tagCipher "E" = some "" := by
  refine ⟨tagCipher_roundTrips, tagCipher_tokensNonEmpty,
    tagCipher_rejectsForeign, by decide, fun p => ?_, by decide⟩
  rw [EncryptionManager.encrypt]
  by_cases hp : p = ""
  · subst hp
    decide
  · rw [if_neg hp]
    intro h
    have hdata : ('E' :: p.data) = ['E'] := congrArg String.data h
    have hnil : p.data = [] := List.cons.inj hdata |>.2
    apply hp
    cases p with
    | mk data =>
      cases hnil
      rfl

/-! ### Claim C6 -/

/-- A run in which the connection succeeds (thin mode) but the `SELECT 1`
probe raises. -/
def c6FailingWorld : OracleWorld :=
  ⟨Except.ok OraMode.thin,
    Except.error "ORA-00942: table or view does not exist",
    Except.ok "Oracle Database 19c"⟩

/-- **C6 counterexample.**  When the connection opens but the probe query
fails, `test_connection` returns `(false, message)` as specified — but the
`except` branch never calls `disconnect()`, so the method returns with the
connection still open, refuting "in all cases the connection is disconnected
before the method returns". -/
theorem c6_counterexample_connection_left_open :
    (test_connection c6FailingWorld).1 =
      (false, "Erro: ORA-00942: table or view does not exist") ∧
    (test_connection c6FailingWorld).2 = some OraMode.thin := by
  constructor <;> rfl

/-- **C6 (amended).**  `test_connection` never raises: it returns success
exactly when connect, probe and version query all succeed, converts every
failure into `(false, "Erro: " + message)`, reports the mode (thin/thick) in
the success message, and disconnects on success and when `connect` itself
fails — but when a failure occurs after a successful connect, the connection
is left connected when the method returns. -/
theorem c6_test_connection_never_raises_amended :
    ∀ w : OracleWorld,
      ((test_connection w).1.1 = true ↔
        (∃ m, w.connectResult = Except.ok m) ∧
        w.probeResult = Except.ok () ∧
        (∃ v, w.versionResult = Except.ok v)) ∧
      ((test_connection w).1.1 = false →
        ∃ e, (w.connectResult = Except.error e ∨
            w.probeResult = Except.error e ∨
            w.versionResult = Except.error e) ∧
          (test_connection w).1.2 = "Erro: " ++ e) ∧
      (∀ m v, w.connectResult = Except.ok m →
        w.probeResult = Except.ok () → w.versionResult = Except.ok v →
        test_connection w = ((true, "Conexão bem-sucedida (modo " ++
          modeStr m ++ ")\n" ++ v), Option.none)) ∧
      (∀ e, w.connectResult = Except.error e →
        test_connection w = ((false, "Erro: " ++ e), Option.none)) ∧
      (∀ m, w.connectResult = Except.ok m →
        (test_connection w).1.1 = false → (test_connection w).2 = some m) := by
  intro w
  obtain ⟨cr, pr, vr⟩ := w
  cases cr with
  | error e =>
    refine ⟨by simp [test_connection], fun _ => ⟨e, Or.inl rfl, rfl⟩,
      fun m v hm => ?_, fun e' he => ?_, fun m hm => ?_⟩
    · exact absurd hm (by simp)
    · cases he
      rfl
    · exact absurd hm (by simp)
  | ok m =>
    cases pr with
    | error e =>
      refine ⟨by simp [test_connection], fun _ => ⟨e, Or.inr (Or.inl rfl),
        rfl⟩, fun m' v hm hp => ?_, fun e' he => ?_, fun m' hm _ => ?_⟩
      · exact absurd hp (by simp)
      · exact absurd he (by simp)
      · cases hm
        rfl
    | ok u =>
      cases u
      cases vr with
      | error e =>
        refine ⟨by simp [test_connection], fun _ => ⟨e,
          Or.inr (Or.inr rfl), rfl⟩, fun m' v _ _ hv => ?_,
          fun e' he => ?_, fun m' hm _ => ?_⟩
        · exact absurd hv (by simp)
        · exact absurd he (by simp)
        · cases hm
          rfl
      | ok v =>
        refine ⟨by simp [test_connection], fun hfalse => ?_,
          fun m' v' hm _ hv => ?_, fun e' he => ?_, fun m' hm hfalse => ?_⟩
        · exact absurd hfalse (by simp [test_connection])
        · cases hm
          cases hv
          rfl
        · exact absurd he (by simp)
        · exact absurd hfalse (by simp [test_connection])

/-! ### Claim C8 -/

/-- A cleaned row always has exactly one value per destination column. -/
theorem cleanRow_length (table_name : String) (expected origCols : List String)
    (row : List PyVal) :
    (cleanRow table_name expected origCols row).length = expected.length :=
  List.length_map _ _

/-- When every cleaned row passes the count check, the loop succeeds on all
rows. -/
theorem cleanRowsLoop_ok (table_name : String) (expected origCols : List String)
    (ec : Nat) (hlen : expected.length = ec) (l : List (List PyVal)) :
    cleanRowsLoop table_name expected origCols ec l =
      Except.ok (l.map fun row => cleanRow table_name expected origCols row) := by
  induction l with
  | nil => rfl
  | cons row rest ih =>
    rw [cleanRowsLoop, if_pos (by rw [cleanRow_length, hlen]), ih]
    rfl

/-- For a table with matching column list and `expected_cols` literal, the
insert succeeds on every dataframe, returning one cleaned row per input
row. -/
theorem insertDataframeOracle_eq (table_name : String)
    (expected : List String) (ec : Nat)
    (hcols : TABLE_COLUMNS table_name = some expected)
    (hec : expectedColsCount table_name = some ec)
    (hlen : expected.length = ec) (df : Dataframe) :
    insertDataframeOracle table_name df =
      Except.ok (df.rows.map fun row =>
        cleanRow table_name expected (df.cols.map fun cd => pyUpper cd.1) row,
        (df.rows.map fun row =>
          cleanRow table_name expected (df.cols.map fun cd => pyUpper cd.1)
            row).length) := by
  unfold insertDataframeOracle
  rw [hcols, hec]
  simp only [cleanRowsLoop_ok table_name expected _ ec hlen]

/-- **C8.**  For the three mapped staging tables, reindexing to the fixed
destination column list makes every cleaned row's value count equal the
table's `expected_cols` literal (26/13/15, which equal the column-list
lengths), so `_insert_dataframe_oracle` never takes its fatal count-mismatch
branch: it succeeds on every input dataframe with one cleaned row per input
row, each of exactly the expected width. -/
theorem c8_count_check_unreachable_after_reindex :
    ∀ (table_name : String) (df : Dataframe),
      (table_name = "MXF_TMP_ICMS_SAIDA" ∨
        table_name = "MXF_TMP_PIS_COFINS" ∨
        table_name = "MXF_TMP_CBS_IBS") →
      (TABLE_COLUMNS table_name).map List.length =
        expectedColsCount table_name ∧
      ∃ expected rows, TABLE_COLUMNS table_name = some expected ∧
        insertDataframeOracle table_name df =
          Except.ok (rows, df.rows.length) ∧
        rows.length = df.rows.length ∧
        ∀ r ∈ rows, ∃ ec, expectedColsCount table_name = some ec ∧
          r.length = ec := by
  intro table_name df h
  have key : ∀ (expected : List String) (ec : Nat),
      TABLE_COLUMNS table_name = some expected →
      expectedColsCount table_name = some ec →
      expected.length = ec →
      ∃ expected' rows, TABLE_COLUMNS table_name = some expected' ∧
        insertDataframeOracle table_name df =
          Except.ok (rows, df.rows.length) ∧
        rows.length = df.rows.length ∧
        ∀ r ∈ rows, ∃ ec', expectedColsCount table_name = some ec' ∧
          r.length = ec' := by
    intro expected ec hcols hec hlen
    refine ⟨expected, df.rows.map fun row =>
        cleanRow table_name expected (df.cols.map fun cd => pyUpper cd.1) row,
      hcols, ?_, by rw [List.length_map], ?_⟩
    · rw [insertDataframeOracle_eq table_name expected ec hcols hec hlen,
        List.length_map]
    · intro r hr
      rcases List.mem_map.mp hr with ⟨row, _, hrow⟩
      exact ⟨ec, hec, by rw [← hrow, cleanRow_length, hlen]⟩
  obtain rfl | rfl | rfl := h
  · exact ⟨by decide, key _ 26 rfl rfl (by decide)⟩
  · exact ⟨by decide, key _ 13 rfl rfl (by decide)⟩
  · exact ⟨by decide, key _ 15 rfl rfl (by decide)⟩

/-- A one-column, one-row dataframe used to instantiate C8. -/
def dfC8 : Dataframe := ⟨[("ean", Dtype.obj)], [[PyVal.str "X"]]⟩

/-- Witness for C8 at the PIS/COFINS table and a concrete dataframe. -/
theorem c8_count_check_unreachable_after_reindex_witness :
    (TABLE_COLUMNS "MXF_TMP_PIS_COFINS").map List.length =
      expectedColsCount "MXF_TMP_PIS_COFINS" ∧
    ∃ expected rows, TABLE_COLUMNS "MXF_TMP_PIS_COFINS" = some expected ∧
      insertDataframeOracle "MXF_TMP_PIS_COFINS" dfC8 =
        Except.ok (rows, dfC8.rows.length) ∧
      rows.length = dfC8.rows.length ∧
      ∀ r ∈ rows, ∃ ec, expectedColsCount "MXF_TMP_PIS_COFINS" = some ec ∧
        r.length = ec :=
  c8_count_check_unreachable_after_reindex "MXF_TMP_PIS_COFINS" dfC8
    (Or.inr (Or.inl rfl))

/-! ### Claim C1 -/

/-- The write loop's body never inserts into `MXF_TMP_ICMS_ENTRADA`. -/
theorem processTable_entrada (env : PyEnv) (o : Option Dataframe) :
    processTable env "MXF_TMP_ICMS_ENTRADA" o = Except.ok ([], 0) := by
  cases o with
  | none => rfl
  | some df =>
    rw [processTable]
    by_cases h : df.rows.isEmpty <;> simp [h]

/-- For the three mapped tables, the loop body either skips (absent key or
empty dataframe) or inserts one batch of rows into that very table. -/
theorem processTable_mapped (env : PyEnv) (table_name : String)
    (o : Option Dataframe)
    (h : table_name = "MXF_TMP_ICMS_SAIDA" ∨
      table_name = "MXF_TMP_PIS_COFINS" ∨ table_name = "MXF_TMP_CBS_IBS") :
    processTable env table_name o = Except.ok ([], 0) ∨
    ∃ rs, processTable env table_name o =
      Except.ok ([DbOp.insertRows table_name rs], rs.length) := by
  cases o with
  | none => exact Or.inl rfl
  | some df =>
    by_cases he : df.rows.isEmpty
    · left
      rw [processTable, if_pos he]
    · right
      have hne : ¬ table_name = "MXF_TMP_ICMS_ENTRADA" := by
        obtain rfl | rfl | rfl := h <;> decide
      obtain ⟨expected, ec, hcols, hec, hlen⟩ :
          ∃ expected ec, TABLE_COLUMNS table_name = some expected ∧
            expectedColsCount table_name = some ec ∧
            expected.length = ec := by
        obtain rfl | rfl | rfl := h
        · exact ⟨_, 26, rfl, rfl, by decide⟩
        · exact ⟨_, 13, rfl, rfl, by decide⟩
        · exact ⟨_, 15, rfl, rfl, by decide⟩
      refine ⟨(normalizeDataframe env df).rows.map fun row =>
        cleanRow table_name expected
          ((normalizeDataframe env df).cols.map fun cd => pyUpper cd.1)
          row, ?_⟩
      rw [processTable, if_neg he, if_neg hne,
        insertDataframeOracle_eq table_name expected ec hcols hec hlen]
      rfl

/-- Composing the four `processTable` results the way the source loop and the
final commit do. -/
theorem write_eq (env : PyEnv) (dfs : TmpDataframes)
    (o1 o2 o3 o4 : List DbOp) (n1 n2 n3 n4 : Nat)
    (h1 : processTable env "MXF_TMP_ICMS_ENTRADA" dfs.icms_entrada =
      Except.ok (o1, n1))
    (h2 : processTable env "MXF_TMP_ICMS_SAIDA" dfs.icms_saida =
      Except.ok (o2, n2))
    (h3 : processTable env "MXF_TMP_PIS_COFINS" dfs.pis_cofins =
      Except.ok (o3, n3))
    (h4 : processTable env "MXF_TMP_CBS_IBS" dfs.cbs_ibs =
      Except.ok (o4, n4)) :
    write_dataframes_to_tmp_tables env dfs =
      Except.ok (tmpDeletes ++ (o1 ++ o2 ++ o3 ++ o4), n1 + n2 + n3 + n4,
        "✓ " ++ toString (n1 + n2 + n3 + n4) ++
          " registros inseridos no Oracle!") := by
  unfold write_dataframes_to_tmp_tables
  rw [h1, h2, h3, h4]
  rfl

/-- The four opening `DELETE FROM` statements clear all four staging
tables. -/
theorem applyOps_deletes (st : OracleTmpState) :
    applyOps st tmpDeletes = ⟨[], [], [], []⟩ := by
  cases st
  rfl

/-- An effect that inserts into one of the three repopulated staging
tables. -/
def InsOk (op : DbOp) : Prop :=
  ∃ t rs, op = DbOp.insertRows t rs ∧
    (t = "MXF_TMP_ICMS_SAIDA" ∨ t = "MXF_TMP_PIS_COFINS" ∨
      t = "MXF_TMP_CBS_IBS")

theorem insOk_nil : ∀ op ∈ ([] : List DbOp), InsOk op := by simp

theorem insOk_singleton (t : String) (rs : List (List PyVal))
    (h : t = "MXF_TMP_ICMS_SAIDA" ∨ t = "MXF_TMP_PIS_COFINS" ∨
      t = "MXF_TMP_CBS_IBS") :
    ∀ op ∈ [DbOp.insertRows t rs], InsOk op := by
  intro op hop
  rw [List.mem_singleton] at hop
  exact ⟨t, rs, hop, h⟩

/-- **C1.**  On every input dict of dataframes, a successful
`write_dataframes_to_tmp_tables` first issues the DELETEs for all four
staging tables and afterwards inserts only into `MXF_TMP_ICMS_SAIDA`,
`MXF_TMP_PIS_COFINS` and `MXF_TMP_CBS_IBS`, so `MXF_TMP_ICMS_ENTRADA` ends
empty on every starting state — even when the input holds a non-empty
`icms_entrada` dataframe — and the returned total counts exactly the rows of
the three repopulated tables, never the skipped `icms_entrada` rows. -/
theorem c1_write_skips_icms_entrada :
    ∀ (env : PyEnv) (dfs : TmpDataframes) (st : OracleTmpState),
      ∃ ops total,
        write_dataframes_to_tmp_tables env dfs =
          Except.ok (ops, total,
            "✓ " ++ toString total ++ " registros inseridos no Oracle!") ∧
        ops.take 4 = tmpDeletes ∧
        (∀ op ∈ ops.drop 4, InsOk op) ∧
        (applyOps st ops).icms_entrada = [] ∧
        total = (applyOps st ops).icms_saida.length +
          (applyOps st ops).pis_cofins.length +
          (applyOps st ops).cbs_ibs.length := by
  intro env dfs st
  have h1 := processTable_entrada env dfs.icms_entrada
  have h2 := processTable_mapped env "MXF_TMP_ICMS_SAIDA" dfs.icms_saida
    (Or.inl rfl)
  have h3 := processTable_mapped env "MXF_TMP_PIS_COFINS" dfs.pis_cofins
    (Or.inr (Or.inl rfl))
  have h4 := processTable_mapped env "MXF_TMP_CBS_IBS" dfs.cbs_ibs
    (Or.inr (Or.inr rfl))
  have happly : ∀ ops : List DbOp,
      applyOps st (tmpDeletes ++ ops) = applyOps ⟨[], [], [], []⟩ ops := by
    intro ops
    rw [applyOps, List.foldl_append]
    rw [show List.foldl applyOp st tmpDeletes = applyOps st tmpDeletes from
      rfl, applyOps_deletes]
    rfl
  have hdrop : ∀ ops : List DbOp, (tmpDeletes ++ ops).drop 4 = ops :=
    fun ops => List.drop_left' rfl
  rcases h2 with h2 | ⟨rs2, h2⟩ <;> rcases h3 with h3 | ⟨rs3, h3⟩ <;>
    rcases h4 with h4 | ⟨rs4, h4⟩ <;>
    refine ⟨_, _, write_eq env dfs _ _ _ _ _ _ _ _ h1 h2 h3 h4,
      List.take_left' rfl, ?_, ?_, ?_⟩
  all_goals try rw [hdrop]
  all_goals try rw [happly]
  all_goals try
    exact List.forall_mem_append.mpr
      ⟨List.forall_mem_append.mpr
        ⟨List.forall_mem_append.mpr ⟨insOk_nil, by
          first
            | exact insOk_nil
            | exact insOk_singleton _ _ (Or.inl rfl)⟩, by
          first
            | exact insOk_nil
            | exact insOk_singleton _ _ (Or.inr (Or.inl rfl))⟩, by
          first
            | exact insOk_nil
            | exact insOk_singleton _ _ (Or.inr (Or.inr rfl))⟩
  all_goals try rfl
  all_goals simp [applyOps, applyOp]

/-! ### Claim C7 -/

unseal Rat.add Rat.mul Rat.inv in
theorem pyFloat_12_5 :
    pyFloatOfString (replaceCommaDot (stripWs "12.5")) =
      some (PyFloat.finite (25 / 2)) := by decide

/-- A concrete python environment (its two members are never consulted for
the string cells these theorems evaluate). -/
def envC7 : PyEnv := ⟨fun _ => PyVal.none, fun _ => "nan"⟩

/-- A PIS/COFINS batch with one row whose numeric-designated cell
(`pis_alq_e`) holds an unparseable string. -/
def dfC7 : Dataframe :=
  ⟨[("codigo_produto", Dtype.obj), ("pis_alq_e", Dtype.obj)],
    [[PyVal.str "P1", PyVal.str "not-a-number"]]⟩

/-- **C7 (amended).**  In the enterprise bulk-insert cleaning step: a string
equal, case-insensitively after trimming, to `"null"`, `"none"` or the empty
string becomes a true null in any column; `"12,5"` in a numeric-designated
column becomes the float `12.5`; a string failing numeric parsing in a
numeric-designated column becomes null with an error logged while the rest
of its row is still inserted (neither row nor batch aborts).  The `"nan"`
token, however, is nulled only as the exact strings `"nan"`/`"NaN"` (and the
empty string) by the dtype-normalization pass, not case-insensitively — see
the counterexample. -/
theorem c7_cell_cleaning_amended :
    (∀ table_name col_name s, (pyLower (stripWs s) = "none" ∨
        pyLower (stripWs s) = "null" ∨ pyLower (stripWs s) = "") →
      clean_value table_name col_name (PyVal.str s) = (PyVal.none, false)) ∧
    (∀ table_name col_name, isNumberCol table_name col_name = true →
      cleanedStagedStr table_name col_name "12,5" =
        (PyVal.float (PyFloat.finite (25 / 2)), false)) ∧
    (∀ table_name col_name s, isNumberCol table_name col_name = true →
      ¬ (pyLower (stripWs s) = "none" ∨ pyLower (stripWs s) = "null" ∨
        pyLower (stripWs s) = "") →
      pyFloatOfString (replaceCommaDot (stripWs s)) = Option.none →
      clean_value table_name col_name (PyVal.str s) = (PyVal.none, true)) ∧
    normalizeObjStr "nan" = PyVal.none ∧
    normalizeObjStr "NaN" = PyVal.none ∧
    normalizeObjStr "" = PyVal.none ∧
    insertDataframeOracle "MXF_TMP_PIS_COFINS"
        (normalizeDataframe envC7 dfC7) =
      Except.ok ([[PyVal.str "P1", PyVal.none, PyVal.none, PyVal.none,
        PyVal.none, PyVal.none, PyVal.none, PyVal.none, PyVal.none,
        PyVal.none, PyVal.none, PyVal.none, PyVal.none]], 1) ∧
    cleanedStagedStr "MXF_TMP_PIS_COFINS" "PIS_ALQ_E" "not-a-number" =
      (PyVal.none, true) := by
  refine ⟨fun table_name col_name s htoken => ?_,
    fun table_name col_name hnum => ?_,
    fun table_name col_name s hnum hnot hparse => ?_,
    rfl, rfl, rfl, rfl, rfl⟩
  · simp only [clean_value]
    rw [if_pos htoken]
  · have h1 : normalizeObjStr "12,5" = PyVal.str "12.5" := rfl
    rw [cleanedStagedStr, h1]
    simp only [clean_value]
    rw [if_neg (by decide), if_pos hnum, pyFloat_12_5]
  · simp only [clean_value]
    rw [if_neg hnot, if_pos hnum, hparse]

/-- **C7 counterexample.**  `"NAN"` is, case-insensitively after trimming,
the token `"nan"`, yet the cleaning step leaves it as the string `"NAN"` in a
text column (`EAN` of `MXF_TMP_PIS_COFINS`) instead of a true null: the
normalization pass only replaces the exact strings `"nan"`/`"NaN"`, and
`clean_value`'s token list is only `"none"`/`"null"`/`""`. -/
theorem c7_counterexample_nan_variant_not_nulled :
    pyLower (stripWs "NAN") = "nan" ∧
    isNumberCol "MXF_TMP_PIS_COFINS" "EAN" = false ∧
    cleanedStagedStr "MXF_TMP_PIS_COFINS" "EAN" "NAN" =
      (PyVal.str "NAN", false) := by decide

end OrionTax
